import Mathlib

/-!
Shallow embedding of the FTGMAC100 Ethernet MAC driver packet path
(drivers/net/ftgmac100.c): descriptor rings, the transmit and receive
operations, ring initialization inside device start, and the link
adjustment logic that recomputes the MAC control word.

Machine integers are modelled as `Nat` with explicit 32-bit masking where
the code relies on 32-bit wrap-around.  Memory-mapped register writes and
cache flushes are recorded as explicit events so that frame conditions
("no memory mutation", "no register touched yet") can be stated.
-/

namespace Ftgmac100

/-- Minimum ethernet frame size without FCS (ETH_ZLEN in ftgmac100.c). -/
def ETH_ZLEN : Nat := 60

/-- Number of transmit descriptors (PKTBUFSTX in ftgmac100.c). -/
def PKTBUFSTX : Nat := 4

/-- Modelled from the spec: PKTBUFSRX, the receive ring capacity, is defined
outside this file (u-boot net headers); the spec requires it to be a power of
two, and the driver pairs it with the TX capacity 4, so we use 4. -/
def PKTBUFSRX : Nat := 4

/-- Transmit timeout in milliseconds (FTGMAC100_TX_TIMEOUT_MS). -/
def FTGMAC100_TX_TIMEOUT_MS : Nat := 1000

/-- All 32 bits set: the value of a bitwise complement on a u32. -/
def U32_MASK : Nat := 2 ^ 32 - 1

/-- Modelled from the spec: MAC control register bit positions come from
ftgmac100.h, which is not part of the provided source; the spec describes the
control word as a 32-bit register bitfield in which gigabit-mode, fast-mode
and full-duplex are distinct single bits, so each constant below is a
distinct power of two. -/
def FTGMAC100_MACCR_TXDMA_EN : Nat := 2 ^ 0

def FTGMAC100_MACCR_RXDMA_EN : Nat := 2 ^ 1

def FTGMAC100_MACCR_TXMAC_EN : Nat := 2 ^ 2

def FTGMAC100_MACCR_RXMAC_EN : Nat := 2 ^ 3

/-- Full-duplex bit of the MAC control word (bit 8). -/
def FTGMAC100_MACCR_FULLDUP : Nat := 2 ^ 8

/-- Gigabit-mode bit of the MAC control word (bit 9). -/
def FTGMAC100_MACCR_GIGA_MODE : Nat := 2 ^ 9

def FTGMAC100_MACCR_CRC_APD : Nat := 2 ^ 10

def FTGMAC100_MACCR_RX_RUNT : Nat := 2 ^ 12

def FTGMAC100_MACCR_RX_BROADPKT : Nat := 2 ^ 17

/-- Fast-mode (100 Mbps) bit of the MAC control word (bit 19). -/
def FTGMAC100_MACCR_FAST_MODE : Nat := 2 ^ 19

/-- Software-reset bit of the MAC control word (bit 31, self-clearing). -/
def FTGMAC100_MACCR_SW_RST : Nat := 2 ^ 31

/-- Modelled from the spec: the transmit descriptor's word 0 layout lives in
ftgmac100.h (not in the provided source).  Per the spec it carries the
ownership bit, first/last-segment flags, the buffer-size (length) field and
the end-of-ring flag; word 3 carries the DMA buffer address.  We represent
word 0 as a record of those fields, with `rest` standing for any remaining
status bits of the word. -/
structure TxDes where
  own : Bool
  fts : Bool
  lts : Bool
  edotr : Bool
  bufSize : Nat
  rest : Nat
  txdes3 : Nat
deriving DecidableEq

/-- The all-zero transmit descriptor (txdes0 = 0, txdes3 = 0). -/
def zeroTxDes : TxDes :=
  { own := false, fts := false, lts := false, edotr := false,
    bufSize := 0, rest := 0, txdes3 := 0 }

/-- Modelled from the spec: the receive descriptor's word 0 layout lives in
ftgmac100.h (not in the provided source).  Per the spec it carries the
packet-ready (ownership) bit, the error flags tested by recv (generic RX
error, CRC error, frame-too-long, runt, odd nibble count), the valid data
byte count and the end-of-ring flag; word 3 carries the buffer address.
`rest` stands for any remaining status bits of word 0. -/
structure RxDes where
  rdy : Bool
  rxErr : Bool
  crcErr : Bool
  ftl : Bool
  runt : Bool
  oddNb : Bool
  edorr : Bool
  vdbc : Nat
  rest : Nat
  rxdes3 : Nat
deriving DecidableEq

/-- The all-zero receive descriptor (rxdes0 = 0, rxdes3 = 0). -/
def zeroRxDes : RxDes :=
  { rdy := false, rxErr := false, crcErr := false, ftl := false,
    runt := false, oddNb := false, edorr := false,
    vdbc := 0, rest := 0, rxdes3 := 0 }

/-- Driver-visible device state: the two descriptor rings with their cursor
indices (struct ftgmac100_data), plus the MAC control and DMA-burst
registers that the driver reads back (read-modify-write). -/
structure FtgmacState where
  txdes : List TxDes
  rxdes : List RxDes
  tx_index : Nat
  rx_index : Nat
  maccr : Nat
  dblac : Nat
deriving DecidableEq

/-- A recorded cache maintenance event: flushing a packet buffer range of a
given byte length (rounded to the platform DMA alignment when flushed), or
flushing one descriptor of a ring. -/
inductive FlushEv
  | flushBuf (addr len : Nat)
  | flushTxDesc (idx : Nat)
  | flushRxDesc (idx : Nat)
deriving DecidableEq

/-- Errors returned by ftgmac100_send: -EPERM when the descriptor at the
cursor is still hardware-owned, or the wait_for_bit timeout. -/
inductive SendErr
  | noDescAvailable
  | txTimeout
deriving DecidableEq

/-- Result of a send call: the error (if any), the device state after the
call, the flush events issued, and whether the transmit doorbell (txpd
register) was rung. -/
structure SendOut where
  err : Option SendErr
  st : FtgmacState
  flushes : List FlushEv
  doorbell : Bool
deriving DecidableEq

/-- ftgmac100_send: checks ownership of the descriptor at tx_index, pads the
length to ETH_ZLEN, writes buffer address and txdes0 (keeping only the
end-of-ring flag of the old word), flushes buffer then descriptor, rings the
doorbell and waits for hardware to clear the ownership bit.  `hwClears`
models whether the hardware completes within the bounded timeout: on
completion the descriptor is observed with the ownership bit cleared and the
cursor advances; on timeout the call fails and the cursor stays. -/
def ftgmac100_send (s : FtgmacState) (packet : Nat) (length : Nat)
    (hwClears : Bool) : SendOut :=
  let curr := s.txdes.getD s.tx_index zeroTxDes
  if curr.own then
    { err := some SendErr.noDescAvailable, st := s, flushes := [],
      doorbell := false }
  else
    let len := if length < ETH_ZLEN then ETH_ZLEN else length
    let d1 : TxDes :=
      { own := true, fts := true, lts := true, edotr := curr.edotr,
        bufSize := len, rest := 0, txdes3 := packet }
    let fl := [FlushEv.flushBuf packet len, FlushEv.flushTxDesc s.tx_index]
    if hwClears then
      { err := none,
        st := { s with
                txdes := s.txdes.set s.tx_index { d1 with own := false },
                tx_index := (s.tx_index + 1) % PKTBUFSTX },
        flushes := fl, doorbell := true }
    else
      { err := some SendErr.txTimeout,
        st := { s with txdes := s.txdes.set s.tx_index d1 },
        flushes := fl, doorbell := true }

/-- ftgmac100_recv: returns nothing (-EAGAIN) when the descriptor at
rx_index is still hardware-owned (packet-ready bit clear) or when any error
flag is set; otherwise returns the buffer address and the valid data byte
count.  The descriptor and the cursor are never modified by recv. -/
def ftgmac100_recv (s : FtgmacState) : Option (Nat × Nat) × FtgmacState :=
  let curr := s.rxdes.getD s.rx_index zeroRxDes
  if !curr.rdy then
    (none, s)
  else if curr.rxErr || curr.crcErr || curr.ftl || curr.runt || curr.oddNb then
    (none, s)
  else
    (some (curr.rxdes3, curr.vdbc), s)

/-- ftgmac100_free_pkt: clears the packet-ready bit of the descriptor at
rx_index (releasing the buffer back to hardware), flushes that descriptor,
advances the cursor modulo the ring capacity, and returns 0.  The packet
and length arguments are unused by the code. -/
def ftgmac100_free_pkt (s : FtgmacState) (packet : Nat) (length : Nat) :
    Nat × FtgmacState × List FlushEv :=
  let curr := s.rxdes.getD s.rx_index zeroRxDes
  let s1 := { s with
              rxdes := s.rxdes.set s.rx_index { curr with rdy := false },
              rx_index := (s.rx_index + 1) % PKTBUFSRX }
  (0, s1, [FlushEv.flushRxDesc s.rx_index])

/-- Modelled from the spec: the negotiated link state handed over by the
external PHY-management collaborator.  `rgmii` abstracts
phy_interface_is_rgmii (phy.h is not in the provided source): whether the
configured interface signaling mode supports gigabit. -/
structure PhyDev where
  link : Bool
  speed : Nat
  duplex : Bool
  rgmii : Bool
deriving DecidableEq

/-- The pure control-word computation of ftgmac100_phy_adjust_link: read the
MAC control register, clear the gigabit-mode, fast-mode and full-duplex
bits, then set each according to the negotiated link parameters. -/
def adjust_link_maccr (maccr : Nat) (phy : PhyDev) : Nat :=
  let m := maccr &&&
    (U32_MASK ^^^ (FTGMAC100_MACCR_GIGA_MODE ||| FTGMAC100_MACCR_FAST_MODE |||
      FTGMAC100_MACCR_FULLDUP))
  let m := if phy.rgmii && phy.speed == 1000 then
    m ||| FTGMAC100_MACCR_GIGA_MODE else m
  let m := if phy.speed == 100 then m ||| FTGMAC100_MACCR_FAST_MODE else m
  if phy.duplex then m ||| FTGMAC100_MACCR_FULLDUP else m

/-- ftgmac100_phy_adjust_link: fails (-EREMOTEIO, the NoLink error) when the
link is down and the device is not in NC-SI (no-negotiation) mode; otherwise
returns the recomputed MAC control word that is written back. -/
def ftgmac100_phy_adjust_link (maccr : Nat) (phy : PhyDev) (ncsi_mode : Bool) :
    Except Unit Nat :=
  if !phy.link && !ncsi_mode then
    Except.error ()
  else
    Except.ok (adjust_link_maccr maccr phy)

/-- The registers written by ftgmac100_start, in the order the code touches
them (maccrReg covers both the reset write and the enable write). -/
inductive Reg
  | maccrReg
  | madr
  | ladr
  | ier
  | txrBadr
  | rxrBadr
  | aptc
  | rbsr
  | dblacReg
deriving DecidableEq

/-- Errors of ftgmac100_start: the descriptor-size configuration check
(return -1), a phy_startup failure, or the no-link failure propagated from
ftgmac100_phy_adjust_link. -/
inductive StartErr
  | configErr
  | phyErr
  | noLink
deriving DecidableEq

/-- Result of a start call: the error (if any), the device state, and the
trace of register writes performed up to the point the call returned. -/
structure StartOut where
  err : Option StartErr
  st : FtgmacState
  writes : List Reg
deriving DecidableEq

/-- The transmit ring as initialized by ftgmac100_start: all descriptors
zeroed, then the end-of-ring flag set on the last one. -/
def initTxRing : List TxDes :=
  (List.replicate PKTBUFSTX zeroTxDes).set (PKTBUFSTX - 1)
    { zeroTxDes with edotr := true }

/-- The receive ring as initialized by ftgmac100_start: each descriptor
zeroed with its pre-assigned packet buffer address written, then word 0 of
the last descriptor overwritten with just the end-of-ring flag. -/
def initRxRing (rxBufs : Nat → Nat) : List RxDes :=
  ((List.range PKTBUFSRX).map
      (fun i => { zeroRxDes with rxdes3 := rxBufs i })).set (PKTBUFSRX - 1)
    { zeroRxDes with edorr := true, rxdes3 := rxBufs (PKTBUFSRX - 1) }

/-- ftgmac100_start: reset (busy-wait for the self-clearing reset bit), MAC
address programming, interrupt disable, ring re-initialization, ring base /
auto-poll / receive-buffer-size register writes, then the descriptor-size
alignment check (fatal on failure), DMA-burst configuration, enabling of
TX/RX MAC and DMA, phy_startup (modelled by `phyStartupOk`), and finally
the link adjustment whose failure propagates. -/
def ftgmac100_start (s : FtgmacState) (rxBufs : Nat → Nat)
    (szTxdes szRxdes : Nat) (phyStartupOk : Bool) (phy : PhyDev)
    (ncsi_mode : Bool) : StartOut :=
  let s := { s with
             maccr := (s.maccr ||| FTGMAC100_MACCR_SW_RST) &&&
               (U32_MASK ^^^ FTGMAC100_MACCR_SW_RST) }
  let w : List Reg := [Reg.maccrReg, Reg.madr, Reg.ladr, Reg.ier]
  let s := { s with
    tx_index := 0, rx_index := 0,
    txdes := initTxRing, rxdes := initRxRing rxBufs }
  let w := w ++ [Reg.txrBadr, Reg.rxrBadr, Reg.aptc, Reg.rbsr]
  if szTxdes &&& 0xF ≠ 0 ∨ szRxdes &&& 0xF ≠ 0 then
    { err := some StartErr.configErr, st := s, writes := w }
  else
    let dblac := s.dblac &&& (U32_MASK ^^^ (0xFF <<< 12))
    let dblac := dblac ||| ((szTxdes >>> 3) <<< 16) ||| ((szTxdes >>> 3) <<< 12)
    let s := { s with dblac := dblac }
    let w := w ++ [Reg.dblacReg]
    let maccrEnable := FTGMAC100_MACCR_TXMAC_EN ||| FTGMAC100_MACCR_RXMAC_EN |||
      FTGMAC100_MACCR_TXDMA_EN ||| FTGMAC100_MACCR_RXDMA_EN |||
      FTGMAC100_MACCR_CRC_APD ||| FTGMAC100_MACCR_FULLDUP |||
      FTGMAC100_MACCR_RX_RUNT ||| FTGMAC100_MACCR_RX_BROADPKT
    let s := { s with maccr := maccrEnable }
    let w := w ++ [Reg.maccrReg]
    if !phyStartupOk then
      { err := some StartErr.phyErr, st := s, writes := w }
    else
      match ftgmac100_phy_adjust_link s.maccr phy ncsi_mode with
      | Except.error _ => { err := some StartErr.noLink, st := s, writes := w }
      | Except.ok m =>
        { err := none, st := { s with maccr := m },
          writes := w ++ [Reg.maccrReg] }

/-- A sample device state with all descriptors zeroed (TX ring free). -/
def fsFree : FtgmacState :=
  { txdes := List.replicate PKTBUFSTX zeroTxDes,
    rxdes := List.replicate PKTBUFSRX zeroRxDes,
    tx_index := 0, rx_index := 0, maccr := 0, dblac := 0 }

/-- A sample device state whose current TX descriptor is hardware-owned. -/
def fsOwned : FtgmacState :=
  { fsFree with
    txdes := [{ zeroTxDes with own := true }, zeroTxDes, zeroTxDes, zeroTxDes] }

/-- A sample device state whose current RX descriptor is software-owned but
carries a CRC error flag. -/
def fsRxCrc : FtgmacState :=
  { fsFree with
    rxdes := [{ zeroRxDes with rdy := true, crcErr := true },
              zeroRxDes, zeroRxDes, zeroRxDes] }

/-- A sample negotiated link state: link up, gigabit over RGMII, full
duplex. -/
def phyUp : PhyDev :=
  { link := true, speed := 1000, duplex := true, rgmii := true }

/-- A sample link state with the link down. -/
def phyDown : PhyDev :=
  { link := false, speed := 0, duplex := false, rgmii := false }

/-! Helper lemmas about single-bit masks. -/

theorem testBit_or_pow (x i j : Nat) :
    (x ||| 2 ^ i).testBit j = (x.testBit j || decide (i = j)) := by
  simp [Nat.testBit_or, Nat.testBit_two_pow]

theorem or_ite_pow (m G : Nat) (c : Bool) :
    (if c then m ||| G else m) = m ||| (if c then G else 0) := by
  cases c <;> simp

theorem testBit_ite_pow_self (c : Bool) (i : Nat) :
    (if c then (2:Nat) ^ i else 0).testBit i = c := by
  cases c <;> simp [Nat.testBit_two_pow]

theorem testBit_ite_pow_ne (c : Bool) {i j : Nat} (h : i ≠ j) :
    (if c then (2:Nat) ^ i else 0).testBit j = false := by
  cases c <;> simp [Nat.testBit_two_pow, h]

theorem getD_set_self {α : Type} (l : List α) (i : Nat) (a d : α)
    (h : i < l.length) : (l.set i a).getD i d = a := by
  simp [List.getD, List.getElem?_set_self', h]

theorem send_timeout_eq (s : FtgmacState) (packet length : Nat)
    (hown : (s.txdes.getD s.tx_index zeroTxDes).own = false) :
    ftgmac100_send s packet length false =
      { err := some SendErr.txTimeout,
        st := { s with
                txdes := s.txdes.set s.tx_index
                  { own := true, fts := true, lts := true,
                    edotr := (s.txdes.getD s.tx_index zeroTxDes).edotr,
                    bufSize := if length < ETH_ZLEN then ETH_ZLEN else length,
                    rest := 0, txdes3 := packet } },
        flushes :=
          [FlushEv.flushBuf packet
            (if length < ETH_ZLEN then ETH_ZLEN else length),
           FlushEv.flushTxDesc s.tx_index],
        doorbell := true } := by
  simp only [ftgmac100_send]
  rw [hown]
  simp

theorem send_complete_eq (s : FtgmacState) (packet length : Nat)
    (hown : (s.txdes.getD s.tx_index zeroTxDes).own = false) :
    ftgmac100_send s packet length true =
      { err := none,
        st := { s with
                txdes := s.txdes.set s.tx_index
                  { own := false, fts := true, lts := true,
                    edotr := (s.txdes.getD s.tx_index zeroTxDes).edotr,
                    bufSize := if length < ETH_ZLEN then ETH_ZLEN else length,
                    rest := 0, txdes3 := packet },
                tx_index := (s.tx_index + 1) % PKTBUFSTX },
        flushes :=
          [FlushEv.flushBuf packet
            (if length < ETH_ZLEN then ETH_ZLEN else length),
           FlushEv.flushTxDesc s.tx_index],
        doorbell := true } := by
  simp only [ftgmac100_send]
  rw [hown]
  simp

/-- C1: if the transmit descriptor at the current tx cursor is
hardware-owned when send is called, send fails with the
no-descriptor-available error and performs no mutation at all: the returned
state is the input state, no flush is issued and the doorbell is not rung. -/
theorem C1_send_full_ring_no_mutation (s : FtgmacState) (packet length : Nat)
    (hwClears : Bool)
    (h : (s.txdes.getD s.tx_index zeroTxDes).own = true) :
    ftgmac100_send s packet length hwClears =
      { err := some SendErr.noDescAvailable, st := s, flushes := [],
        doorbell := false } := by
  simp only [ftgmac100_send]
  rw [h]
  simp

theorem C1_witness :
    (fsOwned.txdes.getD fsOwned.tx_index zeroTxDes).own = true ∧
    ftgmac100_send fsOwned 5 10 true =
      { err := some SendErr.noDescAvailable, st := fsOwned, flushes := [],
        doorbell := false } :=
  ⟨by decide, C1_send_full_ring_no_mutation fsOwned 5 10 true (by decide)⟩

/-- C2: recv returns no packet both when the current receive slot is
hardware-owned (packet-ready bit clear) and when any of the error flags is
set, and in all those cases it returns the state unchanged: no descriptor
field is modified and the rx cursor does not advance. -/
theorem C2_recv_no_packet (s : FtgmacState)
    (h : (s.rxdes.getD s.rx_index zeroRxDes).rdy = false ∨
         (s.rxdes.getD s.rx_index zeroRxDes).rxErr = true ∨
         (s.rxdes.getD s.rx_index zeroRxDes).crcErr = true ∨
         (s.rxdes.getD s.rx_index zeroRxDes).ftl = true ∨
         (s.rxdes.getD s.rx_index zeroRxDes).runt = true ∨
         (s.rxdes.getD s.rx_index zeroRxDes).oddNb = true) :
    ftgmac100_recv s = (none, s) := by
  simp only [ftgmac100_recv]
  rcases h with h | h | h | h | h | h
  · rw [h]; simp
  all_goals {
    cases hr : (s.rxdes.getD s.rx_index zeroRxDes).rdy with
    | false => simp
    | true => rw [h]; simp
  }

theorem C2_witness :
    ((fsRxCrc.rxdes.getD fsRxCrc.rx_index zeroRxDes).rdy = false ∨
     (fsRxCrc.rxdes.getD fsRxCrc.rx_index zeroRxDes).rxErr = true ∨
     (fsRxCrc.rxdes.getD fsRxCrc.rx_index zeroRxDes).crcErr = true ∨
     (fsRxCrc.rxdes.getD fsRxCrc.rx_index zeroRxDes).ftl = true ∨
     (fsRxCrc.rxdes.getD fsRxCrc.rx_index zeroRxDes).runt = true ∨
     (fsRxCrc.rxdes.getD fsRxCrc.rx_index zeroRxDes).oddNb = true) ∧
    ftgmac100_recv fsRxCrc = (none, fsRxCrc) :=
  ⟨by decide, C2_recv_no_packet fsRxCrc (by decide)⟩

/-- C3: once send reaches the completion wait (the slot was
software-owned): on timeout it returns the timeout error, the slot is left
hardware-owned and the tx cursor does not advance; on completion it returns
success and advances the tx cursor to (index + 1) mod capacity. -/
theorem C3_send_wait_outcome (s : FtgmacState) (packet length : Nat)
    (hown : (s.txdes.getD s.tx_index zeroTxDes).own = false)
    (hlen : s.tx_index < s.txdes.length) :
    (ftgmac100_send s packet length false).err = some SendErr.txTimeout ∧
    ((ftgmac100_send s packet length false).st.txdes.getD s.tx_index
      zeroTxDes).own = true ∧
    (ftgmac100_send s packet length false).st.tx_index = s.tx_index ∧
    (ftgmac100_send s packet length true).err = none ∧
    (ftgmac100_send s packet length true).st.tx_index =
      (s.tx_index + 1) % PKTBUFSTX := by
  rw [send_timeout_eq s packet length hown, send_complete_eq s packet length hown]
  refine ⟨rfl, ?_, rfl, rfl, rfl⟩
  rw [getD_set_self _ _ _ _ hlen]

theorem C3_witness :
    (fsFree.txdes.getD fsFree.tx_index zeroTxDes).own = false ∧
    fsFree.tx_index < fsFree.txdes.length ∧
    ((ftgmac100_send fsFree 5 10 false).err = some SendErr.txTimeout ∧
     ((ftgmac100_send fsFree 5 10 false).st.txdes.getD fsFree.tx_index
       zeroTxDes).own = true ∧
     (ftgmac100_send fsFree 5 10 false).st.tx_index = fsFree.tx_index ∧
     (ftgmac100_send fsFree 5 10 true).err = none ∧
     (ftgmac100_send fsFree 5 10 true).st.tx_index =
       (fsFree.tx_index + 1) % PKTBUFSTX) :=
  ⟨by decide, by decide, C3_send_wait_outcome fsFree 5 10 (by decide) (by decide)⟩

/-- C4: when send finds an available slot, the length programmed into the
descriptor's buffer-size field, and the byte length of the flushed buffer
range, are exactly 60 when the argument is below 60 and exactly the argument
otherwise. -/
theorem C4_send_padding (s : FtgmacState) (packet length : Nat)
    (hwClears : Bool)
    (hown : (s.txdes.getD s.tx_index zeroTxDes).own = false)
    (hlen : s.tx_index < s.txdes.length) :
    ((ftgmac100_send s packet length hwClears).st.txdes.getD s.tx_index
      zeroTxDes).bufSize =
      (if length < ETH_ZLEN then ETH_ZLEN else length) ∧
    (ftgmac100_send s packet length hwClears).flushes =
      [FlushEv.flushBuf packet (if length < ETH_ZLEN then ETH_ZLEN else length),
       FlushEv.flushTxDesc s.tx_index] := by
  cases hwClears
  · rw [send_timeout_eq s packet length hown]
    exact ⟨by rw [getD_set_self _ _ _ _ hlen], rfl⟩
  · rw [send_complete_eq s packet length hown]
    exact ⟨by rw [getD_set_self _ _ _ _ hlen], rfl⟩

theorem C4_witness :
    (fsFree.txdes.getD fsFree.tx_index zeroTxDes).own = false ∧
    fsFree.tx_index < fsFree.txdes.length ∧
    (((ftgmac100_send fsFree 5 10 true).st.txdes.getD fsFree.tx_index
       zeroTxDes).bufSize = (if 10 < ETH_ZLEN then ETH_ZLEN else 10) ∧
     (ftgmac100_send fsFree 5 10 true).flushes =
       [FlushEv.flushBuf 5 (if 10 < ETH_ZLEN then ETH_ZLEN else 10),
        FlushEv.flushTxDesc fsFree.tx_index]) :=
  ⟨by decide, by decide, C4_send_padding fsFree 5 10 true (by decide) (by decide)⟩

/-- C5: the MAC control word computed by adjust_link (when it does not fail
with no-link) has the gigabit-mode bit (bit 9) set iff the interface
signaling mode supports gigabit and the negotiated speed is 1000, the
fast-mode bit (bit 19) set iff the negotiated speed is 100, and the
full-duplex bit (bit 8) set iff full duplex was negotiated. -/
theorem C5_adjust_link_control_word (maccr : Nat) (phy : PhyDev)
    (ncsi_mode : Bool) (hl : phy.link = true ∨ ncsi_mode = true) :
    ftgmac100_phy_adjust_link maccr phy ncsi_mode =
      Except.ok (adjust_link_maccr maccr phy) ∧
    (adjust_link_maccr maccr phy).testBit 9 =
      (phy.rgmii && phy.speed == 1000) ∧
    (adjust_link_maccr maccr phy).testBit 19 = (phy.speed == 100) ∧
    (adjust_link_maccr maccr phy).testBit 8 = phy.duplex := by
  have hK9 : (U32_MASK ^^^ ((2:Nat) ^ 9 ||| 2 ^ 19 ||| 2 ^ 8)).testBit 9 =
      false := by decide
  have hK19 : (U32_MASK ^^^ ((2:Nat) ^ 9 ||| 2 ^ 19 ||| 2 ^ 8)).testBit 19 =
      false := by decide
  have hK8 : (U32_MASK ^^^ ((2:Nat) ^ 9 ||| 2 ^ 19 ||| 2 ^ 8)).testBit 8 =
      false := by decide
  have h9 : (maccr &&& (U32_MASK ^^^ ((2:Nat) ^ 9 ||| 2 ^ 19 ||| 2 ^ 8))).testBit 9 =
      false := by rw [Nat.testBit_and, hK9, Bool.and_false]
  have h19 : (maccr &&& (U32_MASK ^^^ ((2:Nat) ^ 9 ||| 2 ^ 19 ||| 2 ^ 8))).testBit 19 =
      false := by rw [Nat.testBit_and, hK19, Bool.and_false]
  have h8 : (maccr &&& (U32_MASK ^^^ ((2:Nat) ^ 9 ||| 2 ^ 19 ||| 2 ^ 8))).testBit 8 =
      false := by rw [Nat.testBit_and, hK8, Bool.and_false]
  refine ⟨?_, ?_, ?_, ?_⟩
  · simp only [ftgmac100_phy_adjust_link]
    rcases hl with h | h <;> rw [h] <;> simp
  · simp only [adjust_link_maccr, FTGMAC100_MACCR_GIGA_MODE,
      FTGMAC100_MACCR_FAST_MODE, FTGMAC100_MACCR_FULLDUP]
    rw [or_ite_pow, or_ite_pow, or_ite_pow,
      Nat.testBit_or, Nat.testBit_or, Nat.testBit_or, h9,
      testBit_ite_pow_self,
      testBit_ite_pow_ne _ (by decide : (19:Nat) ≠ 9),
      testBit_ite_pow_ne _ (by decide : (8:Nat) ≠ 9)]
    simp
  · simp only [adjust_link_maccr, FTGMAC100_MACCR_GIGA_MODE,
      FTGMAC100_MACCR_FAST_MODE, FTGMAC100_MACCR_FULLDUP]
    rw [or_ite_pow, or_ite_pow, or_ite_pow,
      Nat.testBit_or, Nat.testBit_or, Nat.testBit_or, h19,
      testBit_ite_pow_self,
      testBit_ite_pow_ne _ (by decide : (9:Nat) ≠ 19),
      testBit_ite_pow_ne _ (by decide : (8:Nat) ≠ 19)]
    simp
  · simp only [adjust_link_maccr, FTGMAC100_MACCR_GIGA_MODE,
      FTGMAC100_MACCR_FAST_MODE, FTGMAC100_MACCR_FULLDUP]
    rw [or_ite_pow, or_ite_pow, or_ite_pow,
      Nat.testBit_or, Nat.testBit_or, Nat.testBit_or, h8,
      testBit_ite_pow_self,
      testBit_ite_pow_ne _ (by decide : (9:Nat) ≠ 8),
      testBit_ite_pow_ne _ (by decide : (19:Nat) ≠ 8)]
    simp

theorem C5_witness :
    (phyUp.link = true ∨ false = true) ∧
    (ftgmac100_phy_adjust_link 0 phyUp false =
       Except.ok (adjust_link_maccr 0 phyUp) ∧
     (adjust_link_maccr 0 phyUp).testBit 9 =
       (phyUp.rgmii && phyUp.speed == 1000) ∧
     (adjust_link_maccr 0 phyUp).testBit 19 = (phyUp.speed == 100) ∧
     (adjust_link_maccr 0 phyUp).testBit 8 = phyUp.duplex) :=
  ⟨Or.inl (by decide), C5_adjust_link_control_word 0 phyUp false (Or.inl (by decide))⟩

/-- C6: the read-modify-write of adjust_link preserves every bit of the MAC
control register other than the gigabit-mode (9), fast-mode (19) and
full-duplex (8) bits. -/
theorem C6_adjust_link_preserves_bits (maccr : Nat) (phy : PhyDev)
    (ncsi_mode : Bool) (m : Nat) (i : Nat)
    (hok : ftgmac100_phy_adjust_link maccr phy ncsi_mode = Except.ok m)
    (hi : i < 32) (h8 : i ≠ 8) (h9 : i ≠ 9) (h19 : i ≠ 19) :
    m.testBit i = maccr.testBit i := by
  have hm : m = adjust_link_maccr maccr phy := by
    simp only [ftgmac100_phy_adjust_link] at hok
    cases hc : (!phy.link && !ncsi_mode) with
    | true => rw [hc] at hok; simp at hok
    | false => rw [hc] at hok; simp at hok; exact hok.symm
  subst hm
  have hK : (U32_MASK ^^^ ((2:Nat) ^ 9 ||| 2 ^ 19 ||| 2 ^ 8)).testBit i =
      true := by
    rw [Nat.testBit_xor, show U32_MASK = 2 ^ 32 - 1 from rfl,
      Nat.testBit_two_pow_sub_one, Nat.testBit_or, Nat.testBit_or,
      Nat.testBit_two_pow, Nat.testBit_two_pow, Nat.testBit_two_pow,
      decide_eq_true hi, decide_eq_false (Ne.symm h9),
      decide_eq_false (Ne.symm h19), decide_eq_false (Ne.symm h8)]
    rfl
  have hbase : (maccr &&&
      (U32_MASK ^^^ ((2:Nat) ^ 9 ||| 2 ^ 19 ||| 2 ^ 8))).testBit i =
      maccr.testBit i := by rw [Nat.testBit_and, hK, Bool.and_true]
  simp only [adjust_link_maccr, FTGMAC100_MACCR_GIGA_MODE,
    FTGMAC100_MACCR_FAST_MODE, FTGMAC100_MACCR_FULLDUP]
  rw [or_ite_pow, or_ite_pow, or_ite_pow,
    Nat.testBit_or, Nat.testBit_or, Nat.testBit_or, hbase,
    testBit_ite_pow_ne _ (Ne.symm h9), testBit_ite_pow_ne _ (Ne.symm h19),
    testBit_ite_pow_ne _ (Ne.symm h8)]
  simp

theorem C6_witness :
    ftgmac100_phy_adjust_link 1 phyUp false =
      Except.ok (adjust_link_maccr 1 phyUp) ∧
    (0:Nat) < 32 ∧ (0:Nat) ≠ 8 ∧ (0:Nat) ≠ 9 ∧ (0:Nat) ≠ 19 ∧
    (adjust_link_maccr 1 phyUp).testBit 0 = (1:Nat).testBit 0 :=
  ⟨by rfl, by decide, by decide, by decide, by decide,
   C6_adjust_link_preserves_bits 1 phyUp false (adjust_link_maccr 1 phyUp) 0
     (by rfl) (by decide) (by decide) (by decide) (by decide)⟩

/-- C7: after the ring-initialization phase of start, both cursors are 0,
the TX ring is the 4-slot ring in which every descriptor is software-owned
and exactly the descriptor at index capacity - 1 carries the end-of-ring
flag, and the RX ring has every descriptor hardware-owned (packet-ready bit
clear) with its pre-assigned buffer address written, the end-of-ring flag
exactly on the last descriptor. -/
theorem C7_ring_init (s : FtgmacState) (rxBufs : Nat → Nat)
    (szTxdes szRxdes : Nat) (phyStartupOk : Bool) (phy : PhyDev)
    (ncsi_mode : Bool) :
    (ftgmac100_start s rxBufs szTxdes szRxdes phyStartupOk phy
      ncsi_mode).st.tx_index = 0 ∧
    (ftgmac100_start s rxBufs szTxdes szRxdes phyStartupOk phy
      ncsi_mode).st.rx_index = 0 ∧
    (ftgmac100_start s rxBufs szTxdes szRxdes phyStartupOk phy
      ncsi_mode).st.txdes = initTxRing ∧
    (ftgmac100_start s rxBufs szTxdes szRxdes phyStartupOk phy
      ncsi_mode).st.rxdes = initRxRing rxBufs ∧
    initTxRing.length = PKTBUFSTX ∧
    (initRxRing rxBufs).length = PKTBUFSRX ∧
    (∀ i, (initTxRing.getD i zeroTxDes).edotr = decide (i = PKTBUFSTX - 1)) ∧
    (∀ i, (initTxRing.getD i zeroTxDes).own = false) ∧
    (∀ i, ((initRxRing rxBufs).getD i zeroRxDes).edorr =
      decide (i = PKTBUFSRX - 1)) ∧
    (∀ i, ((initRxRing rxBufs).getD i zeroRxDes).rdy = false) ∧
    initRxRing rxBufs =
      [{ zeroRxDes with rxdes3 := rxBufs 0 },
       { zeroRxDes with rxdes3 := rxBufs 1 },
       { zeroRxDes with rxdes3 := rxBufs 2 },
       { zeroRxDes with edorr := true, rxdes3 := rxBufs 3 }] := by
  have hRx : initRxRing rxBufs =
      [{ zeroRxDes with rxdes3 := rxBufs 0 },
       { zeroRxDes with rxdes3 := rxBufs 1 },
       { zeroRxDes with rxdes3 := rxBufs 2 },
       { zeroRxDes with edorr := true, rxdes3 := rxBufs 3 }] := rfl
  have hFrame :
      (ftgmac100_start s rxBufs szTxdes szRxdes phyStartupOk phy
        ncsi_mode).st.tx_index = 0 ∧
      (ftgmac100_start s rxBufs szTxdes szRxdes phyStartupOk phy
        ncsi_mode).st.rx_index = 0 ∧
      (ftgmac100_start s rxBufs szTxdes szRxdes phyStartupOk phy
        ncsi_mode).st.txdes = initTxRing ∧
      (ftgmac100_start s rxBufs szTxdes szRxdes phyStartupOk phy
        ncsi_mode).st.rxdes = initRxRing rxBufs := by
    simp only [ftgmac100_start]
    split
    · exact ⟨rfl, rfl, rfl, rfl⟩
    · split
      · exact ⟨rfl, rfl, rfl, rfl⟩
      · split <;> exact ⟨rfl, rfl, rfl, rfl⟩
  refine ⟨hFrame.1, hFrame.2.1, hFrame.2.2.1, hFrame.2.2.2, rfl, ?_, ?_, ?_,
    ?_, ?_, hRx⟩
  · rw [hRx]; rfl
  · intro i
    match i with
    | 0 => rfl
    | 1 => rfl
    | 2 => rfl
    | 3 => rfl
    | n + 4 =>
      rw [decide_eq_false (by simp only [PKTBUFSTX]; omega : ¬(n + 4 = PKTBUFSTX - 1))]
      rfl
  · intro i
    match i with
    | 0 => rfl
    | 1 => rfl
    | 2 => rfl
    | 3 => rfl
    | _ + 4 => rfl
  · intro i
    rw [hRx]
    match i with
    | 0 => rfl
    | 1 => rfl
    | 2 => rfl
    | 3 => rfl
    | n + 4 =>
      rw [decide_eq_false (by simp only [PKTBUFSRX]; omega : ¬(n + 4 = PKTBUFSRX - 1))]
      rfl
  · intro i
    rw [hRx]
    match i with
    | 0 => rfl
    | 1 => rfl
    | 2 => rfl
    | 3 => rfl
    | _ + 4 => rfl

/-- C8 counterexample: with a misaligned descriptor size, start does return
the configuration error, but at that point several hardware registers have
already been written: the reset (MAC control), the MAC address registers,
the interrupt-enable register and the ring base address registers, refuting
the claim that the failure is detected before any register write. -/
theorem C8_counterexample :
    (ftgmac100_start fsFree (fun i => i) 8 16 true phyUp false).err =
      some StartErr.configErr ∧
    (ftgmac100_start fsFree (fun i => i) 8 16 true phyUp false).writes ≠ [] ∧
    Reg.maccrReg ∈
      (ftgmac100_start fsFree (fun i => i) 8 16 true phyUp false).writes ∧
    Reg.madr ∈
      (ftgmac100_start fsFree (fun i => i) 8 16 true phyUp false).writes ∧
    Reg.ier ∈
      (ftgmac100_start fsFree (fun i => i) 8 16 true phyUp false).writes ∧
    Reg.txrBadr ∈
      (ftgmac100_start fsFree (fun i => i) 8 16 true phyUp false).writes := by
  refine ⟨rfl, ?_, ?_, ?_, ?_, ?_⟩ <;> decide

/-- C8 (amended): when the descriptor size is misaligned, start fails with
the configuration error before the DMA/burst configuration register is
written and before the transmit/receive enable write, but after the reset,
MAC address, interrupt-disable, ring base, auto-poll and
receive-buffer-size register writes: the write trace at the point of
failure is exactly that prefix, with no DMA-burst write in it. -/
theorem C8_config_check_trace (s : FtgmacState) (rxBufs : Nat → Nat)
    (szTxdes szRxdes : Nat) (phyStartupOk : Bool) (phy : PhyDev)
    (ncsi_mode : Bool) (h : szTxdes &&& 0xF ≠ 0 ∨ szRxdes &&& 0xF ≠ 0) :
    (ftgmac100_start s rxBufs szTxdes szRxdes phyStartupOk phy
      ncsi_mode).err = some StartErr.configErr ∧
    (ftgmac100_start s rxBufs szTxdes szRxdes phyStartupOk phy
      ncsi_mode).writes =
      [Reg.maccrReg, Reg.madr, Reg.ladr, Reg.ier, Reg.txrBadr, Reg.rxrBadr,
       Reg.aptc, Reg.rbsr] ∧
    Reg.dblacReg ∉
      (ftgmac100_start s rxBufs szTxdes szRxdes phyStartupOk phy
        ncsi_mode).writes := by
  simp only [ftgmac100_start]
  rw [if_pos h]
  exact ⟨rfl, rfl, by simp⟩

theorem C8_config_check_trace_witness :
    ((8:Nat) &&& 0xF ≠ 0 ∨ (16:Nat) &&& 0xF ≠ 0) ∧
    ((ftgmac100_start fsFree (fun i => i) 8 16 true phyUp false).err =
       some StartErr.configErr ∧
     (ftgmac100_start fsFree (fun i => i) 8 16 true phyUp false).writes =
       [Reg.maccrReg, Reg.madr, Reg.ladr, Reg.ier, Reg.txrBadr, Reg.rxrBadr,
        Reg.aptc, Reg.rbsr] ∧
     Reg.dblacReg ∉
       (ftgmac100_start fsFree (fun i => i) 8 16 true phyUp false).writes) :=
  ⟨Or.inl (by decide),
   C8_config_check_trace fsFree (fun i => i) 8 16 true phyUp false
     (Or.inl (by decide))⟩

/-- C9: adjust_link fails (with the no-link error) exactly when the link is
down and the device is not in the no-negotiation (NC-SI) mode, and under a
well-aligned configuration with a successful phy_startup this failure is
exactly what makes start fail with the no-link error. -/
theorem C9_no_link_propagation (maccr : Nat) (phy : PhyDev)
    (ncsi_mode : Bool) (s : FtgmacState) (rxBufs : Nat → Nat)
    (szTxdes szRxdes : Nat) (ha : szTxdes &&& 0xF = 0)
    (hb : szRxdes &&& 0xF = 0) :
    (ftgmac100_phy_adjust_link maccr phy ncsi_mode = Except.error () ↔
      (phy.link = false ∧ ncsi_mode = false)) ∧
    ((ftgmac100_start s rxBufs szTxdes szRxdes true phy ncsi_mode).err =
        some StartErr.noLink ↔ (phy.link = false ∧ ncsi_mode = false)) := by
  have hc : ¬(szTxdes &&& 0xF ≠ 0 ∨ szRxdes &&& 0xF ≠ 0) := by
    rintro (h1 | h2)
    · exact h1 ha
    · exact h2 hb
  constructor
  · simp only [ftgmac100_phy_adjust_link]
    cases hl : phy.link <;> cases hn : ncsi_mode <;> simp
  · simp only [ftgmac100_start, ftgmac100_phy_adjust_link]
    rw [if_neg hc]
    cases hl : phy.link <;> cases hn : ncsi_mode <;> simp

theorem C9_witness :
    ((16:Nat) &&& 0xF = 0) ∧
    ((ftgmac100_phy_adjust_link 0 phyDown false = Except.error () ↔
       (phyDown.link = false ∧ false = false)) ∧
     ((ftgmac100_start fsFree (fun i => i) 16 16 true phyDown false).err =
         some StartErr.noLink ↔ (phyDown.link = false ∧ false = false))) :=
  ⟨by decide,
   C9_no_link_propagation 0 phyDown false fsFree (fun i => i) 16 16
     (by decide) (by decide)⟩

/-- C10: free_pkt ignores its packet and length arguments, returns 0
unconditionally, clears exactly the packet-ready bit of the receive slot at
the current rx cursor while preserving every other field of that slot, and
advances the rx cursor to (index + 1) mod capacity. -/
theorem C10_free_pkt_frame (s : FtgmacState) (packet length p2 l2 : Nat) :
    ftgmac100_free_pkt s packet length = ftgmac100_free_pkt s p2 l2 ∧
    (ftgmac100_free_pkt s packet length).1 = 0 ∧
    (ftgmac100_free_pkt s packet length).2.1 =
      { s with
        rxdes := s.rxdes.set s.rx_index
          { s.rxdes.getD s.rx_index zeroRxDes with rdy := false },
        rx_index := (s.rx_index + 1) % PKTBUFSRX } :=
  ⟨rfl, rfl, rfl⟩

end Ftgmac100
